import Mathlib

/-!
Verification development for a thin client wrapper (`GCSClient` in
`gcs_client.py`) around a remote object-storage service.

The embedding models:
- Python exceptions as a record `PyExc` carrying whether the exception is the
  service SDK's `NotFound` class and its string representation `str(e)`;
- the external object-storage service as a pure state `ServiceState` with the
  documented semantics of each SDK call (`Except PyExc` for calls that raise);
- the local file system as an association list from paths to byte sequences;
- each client method as a function of an optional injected fault (an arbitrary
  exception raised by the underlying call), the method arguments and the
  current system state, returning the method's Python return value together
  with the log records it emits and the updated state;
- the process-wide `logging` module state as an association list from logger
  names to loggers (level + attached handlers), as used by the constructor.
-/

/-- Python logging levels that appear in the source. -/
inductive LogLevel
  | debug
  | info
  | warning
  | error
deriving DecidableEq, Repr

/-- One record emitted through `self.logger`. -/
structure LogEntry where
  level : LogLevel
  msg : String
deriving DecidableEq, Repr

/-- A Python exception value: whether it is the SDK's `NotFound` class
(relevant because `get_file_metadata` has a dedicated `except NotFound`
clause), and its message `str(e)`. -/
structure PyExc where
  isNotFound : Bool
  msg : String
deriving DecidableEq, Repr

/-- An SDK `NotFound` exception with the given message. -/
def notFoundExc (m : String) : PyExc := ⟨true, m⟩

/-- Any other exception class with the given message. -/
def genericExc (m : String) : PyExc := ⟨false, m⟩

/-- Boolean test that `n` is a prefix of `h` (character lists). -/
def subAt : List Char → List Char → Bool
  | [], _ => true
  | _ :: _, [] => false
  | a :: as, b :: bs => a == b && subAt as bs

/-- Boolean test that `n` occurs as a contiguous substring of `h`. -/
def hasSubList (n : List Char) : List Char → Bool
  | [] => n.isEmpty
  | c :: cs => subAt n (c :: cs) || hasSubList n cs

/-- Python `needle in hay` on strings: contiguous-substring containment. -/
def containsSub (needle hay : String) : Bool :=
  hasSubList needle.toList hay.toList

/-- Python `name.startswith(pfx)`, used for the service-side prefix filter of
`list_blobs`. -/
def startsWithStr (pfx s : String) : Bool :=
  subAt pfx.toList s.toList

/-- Association-list lookup (used for blobs keyed by (bucket, object) and for
local files keyed by path). -/
def getA {κ β : Type} [BEq κ] (k : κ) : List (κ × β) → Option β
  | [] => none
  | p :: rest => if k == p.1 then some p.2 else getA k rest

/-- Association-list update: bind `k` to `v`, dropping any previous binding. -/
def setA {κ β : Type} [BEq κ] (k : κ) (v : β) (l : List (κ × β)) : List (κ × β) :=
  (k, v) :: l.filter (fun p => !(k == p.1))

/-- Association-list removal of the binding for `k`. -/
def delA {κ β : Type} [BEq κ] (k : κ) (l : List (κ × β)) : List (κ × β) :=
  l.filter (fun p => !(k == p.1))

/-- A stored object: its bytes and the service-maintained attributes surfaced
by `get_file_metadata` besides name and size. -/
structure BlobRec where
  data : List Nat
  content_type : String
  created : Nat
  updated : Nat
deriving DecidableEq, Repr

/-- The external object-storage service's state: the existing bucket names,
the stored objects keyed by (bucket name, object name), and a clock supplying
creation/update timestamps. -/
structure ServiceState where
  buckets : List String
  blobs : List ((String × String) × BlobRec)
  now : Nat
deriving DecidableEq, Repr

/-- The whole system state: the remote service plus the local file system
(path to byte-sequence bindings). -/
structure Sys where
  service : ServiceState
  fs : List (String × List Nat)
deriving DecidableEq, Repr

/-- The metadata record built by `get_file_metadata` (`gcs_client.py` lines
184-191): exactly the fields name, size, content_type, created, updated,
md5_hash. -/
structure Metadata where
  name : String
  size : Nat
  content_type : String
  created : Nat
  updated : Nat
  md5_hash : String
deriving DecidableEq, Repr

/-- Modelled from the spec: the service's MD5 content hash of an object
(`blob.md5_hash`), a base64-encoded 16-byte digest. Modelled as a
deterministic non-empty encoding of the content; the claims only use that it
is a function of the bytes and never empty. -/
def md5Hash (data : List Nat) : String :=
  "md5-" ++ toString (data.foldl (fun a b => (a * 257 + b + 1) % (2 ^ 128)) 7)

/-- Modelled from the spec: the content type the SDK records for an uploaded
file (`upload_from_filename` guesses from the name, defaulting to a generic
binary type); the claims never inspect it. -/
def contentTypeOf (_path : String) : String :=
  "application/octet-stream"

namespace Service

/-- `client.create_bucket(name)`: raises Conflict (HTTP 409) if the bucket
already exists, otherwise creates it. -/
def createBucket (name : String) (s : ServiceState) : Except PyExc ServiceState :=
  if s.buckets.contains name then
    .error (genericExc ("409 POST: the bucket " ++ name ++ " already exists"))
  else
    .ok { s with buckets := name :: s.buckets, now := s.now + 1 }

/-- `client.list_buckets()`: enumerates the bucket names. -/
def listBuckets (s : ServiceState) : Except PyExc (List String) :=
  .ok s.buckets

/-- `bucket.exists()`: reports whether the bucket exists. -/
def bucketExists (name : String) (s : ServiceState) : Except PyExc Bool :=
  .ok (s.buckets.contains name)

/-- `bucket.list_blobs(prefix=pfx)`: raises NotFound for a missing bucket,
otherwise yields the names of the bucket's objects that start with `pfx`. -/
def listBlobs (bucket pfx : String) (s : ServiceState) : Except PyExc (List String) :=
  if s.buckets.contains bucket then
    .ok ((s.blobs.filter
        (fun p => p.1.1 == bucket && startsWithStr pfx p.1.2)).map (fun p => p.1.2))
  else
    .error (notFoundExc ("404 GET: bucket " ++ bucket ++ " does not exist"))

/-- `blob.upload_from_filename` after the local read: raises NotFound for a
missing bucket, otherwise stores the bytes under (bucket, name), stamping the
service-maintained attributes. -/
def uploadBlob (bucket blobName : String) (data : List Nat) (s : ServiceState) :
    Except PyExc ServiceState :=
  if s.buckets.contains bucket then
    .ok { s with
          blobs := setA (bucket, blobName)
            ⟨data, contentTypeOf blobName, s.now, s.now⟩ s.blobs,
          now := s.now + 1 }
  else
    .error (notFoundExc ("404 POST: bucket " ++ bucket ++ " does not exist"))

/-- `blob.download_to_filename` before the local write: raises NotFound for a
missing bucket or object, otherwise produces the stored bytes. -/
def downloadBlob (bucket blobName : String) (s : ServiceState) :
    Except PyExc (List Nat) :=
  if s.buckets.contains bucket then
    match getA (bucket, blobName) s.blobs with
    | some b => .ok b.data
    | none => .error (notFoundExc ("404 GET: object " ++ blobName ++ " does not exist"))
  else
    .error (notFoundExc ("404 GET: bucket " ++ bucket ++ " does not exist"))

/-- `blob.reload()` plus reading the attributes: raises NotFound for a missing
bucket or object, otherwise produces the attributes `get_file_metadata`
surfaces. -/
def reloadBlob (bucket blobName : String) (s : ServiceState) :
    Except PyExc Metadata :=
  if s.buckets.contains bucket then
    match getA (bucket, blobName) s.blobs with
    | some b => .ok ⟨blobName, b.data.length, b.content_type, b.created, b.updated,
        md5Hash b.data⟩
    | none => .error (notFoundExc ("404 GET: object " ++ blobName ++ " does not exist"))
  else
    .error (notFoundExc ("404 GET: bucket " ++ bucket ++ " does not exist"))

/-- `blob.delete()`: raises NotFound for a missing bucket or object, otherwise
removes the object. -/
def deleteBlob (bucket blobName : String) (s : ServiceState) :
    Except PyExc ServiceState :=
  if s.buckets.contains bucket then
    match getA (bucket, blobName) s.blobs with
    | some _ => .ok { s with blobs := delA (bucket, blobName) s.blobs, now := s.now + 1 }
    | none => .error (notFoundExc ("404 DELETE: object " ++ blobName ++ " does not exist"))
  else
    .error (notFoundExc ("404 DELETE: bucket " ++ bucket ++ " does not exist"))

/-- `client.delete_bucket(name)`: raises NotFound for a missing bucket,
Conflict for a non-empty one, otherwise removes the bucket. -/
def deleteBucket (name : String) (s : ServiceState) : Except PyExc ServiceState :=
  if s.buckets.contains name then
    if (s.blobs.filter (fun p => p.1.1 == name)).isEmpty then
      .ok { s with buckets := s.buckets.filter (fun b => !(b == name)), now := s.now + 1 }
    else
      .error (genericExc ("409 DELETE: the bucket " ++ name ++ " is not empty"))
  else
    .error (notFoundExc ("404 DELETE: bucket " ++ name ++ " does not exist"))

end Service

/-- Fault injection at the boundary of the external service: `some e` means
the underlying call raises the arbitrary exception `e` (network failure,
quota, permission denial, ...) instead of following its pure semantics. -/
def inject {α : Type} (fault : Option PyExc) (r : Except PyExc α) : Except PyExc α :=
  match fault with
  | some e => .error e
  | none => r

/-- Reading the local source file inside `blob.upload_from_filename`: raises
(FileNotFoundError) when the path is not bound. -/
def readLocal (path : String) (s : Sys) : Except PyExc (List Nat) :=
  match getA path s.fs with
  | some d => .ok d
  | none => .error (genericExc ("No such file or directory: " ++ path))

/-- Result of a client method that returns a bool and can mutate state. -/
structure BoolRes where
  ret : Bool
  logs : List LogEntry
  sys : Sys
deriving DecidableEq, Repr

/-- Result of a read-only client method: its Python return value and logs. -/
structure ReadRes (α : Type) where
  ret : α
  logs : List LogEntry
deriving DecidableEq, Repr

/-- Result of `upload_file` / `download_file`: bool return, logs, the lines
written with `print`, and the updated state. -/
structure XferRes where
  ret : Bool
  logs : List LogEntry
  stdout : List String
  sys : Sys
deriving DecidableEq, Repr

namespace GCSClient

/-- `GCSClient.create_bucket` (lines 48-61): try the service call; on any
exception log at error level and return False, else return True. -/
def create_bucket (fault : Option PyExc) (bucket_name : String) (s : Sys) : BoolRes :=
  match inject fault (Service.createBucket bucket_name s.service) with
  | .error e =>
      ⟨false, [⟨.error, "Failed to create bucket " ++ bucket_name ++ ": " ++ e.msg⟩], s⟩
  | .ok svc => ⟨true, [], { s with service := svc }⟩

/-- `GCSClient.list_buckets` (lines 63-77): on success log the count at info
level and return the names; on any exception log at error level and return
the empty list. -/
def list_buckets (fault : Option PyExc) (s : Sys) : ReadRes (List String) :=
  match inject fault (Service.listBuckets s.service) with
  | .ok names => ⟨names, [⟨.info, "Found " ++ toString names.length ++ " buckets"⟩]⟩
  | .error e => ⟨[], [⟨.error, "Failed to list buckets: " ++ e.msg⟩]⟩

/-- `GCSClient.bucket_exists` (lines 79-98): return the service's answer; on
an exception whose message contains "403" or "Permission" log at warning
level and return False, on any other exception log at error level and return
False. -/
def bucket_exists (fault : Option PyExc) (bucket_name : String) (s : Sys) :
    ReadRes Bool :=
  match inject fault (Service.bucketExists bucket_name s.service) with
  | .ok b => ⟨b, []⟩
  | .error e =>
      if containsSub "403" e.msg || containsSub "Permission" e.msg then
        ⟨false, [⟨.warning, "Permission denied checking bucket " ++ bucket_name ++
          ". Assuming it does not exist or no access."⟩]⟩
      else
        ⟨false, [⟨.error, "Failed to check if bucket " ++ bucket_name ++
          " exists: " ++ e.msg⟩]⟩

/-- `GCSClient.list_files` (lines 100-119): on success log the count at info
level and return the names; on any exception log at error level and return
the empty list. The default pfx is the empty string. -/
def list_files (fault : Option PyExc) (bucket_name pfx : String) (s : Sys) :
    ReadRes (List String) :=
  match inject fault (Service.listBlobs bucket_name pfx s.service) with
  | .ok names =>
      ⟨names, [⟨.info, "Found " ++ toString names.length ++ " files in bucket " ++
        bucket_name⟩]⟩
  | .error e =>
      ⟨[], [⟨.error, "Failed to list files in bucket " ++ bucket_name ++ ": " ++
        e.msg⟩]⟩

/-- `GCSClient.upload_file` (lines 121-140): read the local file and store it
as the destination object; on success print a line and return True, on any
exception log at error level and return False. -/
def upload_file (fault : Option PyExc)
    (bucket_name source_file_name destination_blob_name : String) (s : Sys) :
    XferRes :=
  match inject fault
      (match readLocal source_file_name s with
       | .error e => .error e
       | .ok data =>
          Service.uploadBlob bucket_name destination_blob_name data s.service) with
  | .error e =>
      ⟨false, [⟨.error, "Failed to upload file " ++ source_file_name ++ ": " ++
        e.msg⟩], [], s⟩
  | .ok svc =>
      ⟨true, [], ["File " ++ source_file_name ++ " uploaded to " ++
        destination_blob_name ++ "."], { s with service := svc }⟩

/-- `GCSClient.download_file` (lines 142-165): fetch the object's bytes and
write them to the local destination; on success print a line and return True,
on any exception log at error level and return False. -/
def download_file (fault : Option PyExc)
    (bucket_name source_blob_name destination_file_name : String) (s : Sys) :
    XferRes :=
  match inject fault (Service.downloadBlob bucket_name source_blob_name s.service) with
  | .error e =>
      ⟨false, [⟨.error, "Failed to download file " ++ source_blob_name ++ ": " ++
        e.msg⟩], [], s⟩
  | .ok data =>
      ⟨true, [], ["Downloaded storage object " ++ source_blob_name ++
        " from bucket " ++ bucket_name ++ " to local file " ++
        destination_file_name ++ "."],
       { s with fs := setA destination_file_name data s.fs }⟩

/-- `GCSClient.get_file_metadata` (lines 168-199): reload the blob and build
the metadata record; `except NotFound` logs at warning level and returns
None, any other exception is logged at error level and returns None. -/
def get_file_metadata (fault : Option PyExc) (bucket_name blob_name : String)
    (s : Sys) : ReadRes (Option Metadata) :=
  match inject fault (Service.reloadBlob bucket_name blob_name s.service) with
  | .ok m => ⟨some m, []⟩
  | .error e =>
      if e.isNotFound then
        ⟨none, [⟨.warning, "File " ++ blob_name ++ " not found in bucket " ++
          bucket_name⟩]⟩
      else
        ⟨none, [⟨.error, "Failed to get metadata for file " ++ blob_name ++
          ": " ++ e.msg⟩]⟩

/-- `GCSClient.delete_file` (lines 201-210): try the deletion; on any
exception (the SDK's NotFound included) log at error level and return False,
else return True. -/
def delete_file (fault : Option PyExc) (bucket_name blob_name : String) (s : Sys) :
    BoolRes :=
  match inject fault (Service.deleteBlob bucket_name blob_name s.service) with
  | .error e =>
      ⟨false, [⟨.error, "Failed to delete blob " ++ blob_name ++ ": " ++ e.msg⟩], s⟩
  | .ok svc => ⟨true, [], { s with service := svc }⟩

/-- `GCSClient.delete_bucket` (lines 212-219): try the deletion; on any
exception log at error level and return False, else return True. -/
def delete_bucket (fault : Option PyExc) (bucket_name : String) (s : Sys) : BoolRes :=
  match inject fault (Service.deleteBucket bucket_name s.service) with
  | .error e =>
      ⟨false, [⟨.error, "Failed to delete bucket " ++ bucket_name ++ ": " ++ e.msg⟩], s⟩
  | .ok svc => ⟨true, [], { s with service := svc }⟩

end GCSClient

/-- A log sink attached to a logger (`logging.StreamHandler` with the format
set on it). -/
structure Handler where
  fmt : String
deriving DecidableEq, Repr

/-- The format string installed by the constructor (line 34). -/
def defaultFormat : String := "%(asctime)s - %(name)s - %(levelname)s - %(message)s"

/-- A logger in the process-wide `logging` registry: its level and its
attached handlers. -/
structure PyLogger where
  level : Nat
  handlers : List Handler
deriving DecidableEq, Repr

/-- A logger freshly created by `logging.getLogger`: level NOTSET (0) and no
handlers. -/
def freshLogger : PyLogger := ⟨0, []⟩

/-- The process-wide `logging` registry: logger names to loggers. -/
abbrev LoggingState := List (String × PyLogger)

/-- `logging.getLogger(name)`: the logger registered under `name`, fresh if
none is. -/
def getLogger (name : String) (ls : LoggingState) : PyLogger :=
  (getA name ls).getD freshLogger

/-- Registering the (mutated) logger back under its name. -/
def setLogger (name : String) (lg : PyLogger) (ls : LoggingState) : LoggingState :=
  setA name lg ls

/-- The logger name used by every instance (line 28):
`f"{__name__}.{self.__class__.__name__}"`, a constant of the module and the
class, identical for all instances. -/
def loggerName : String := "gcs_client.GCSClient"

/-- Result of running the constructor: the updated process-wide logging
registry, the records logged, and either success or the re-raised
exception. -/
structure InitRes where
  logging : LoggingState
  logs : List LogEntry
  result : Except PyExc Unit
deriving Repr

namespace GCSClient

/-- `GCSClient.__init__` (lines 20-46): get the process-wide logger under the
constant name, set its level to `log_level`, attach a stream handler with
`defaultFormat` only if the logger has no handlers, then load the
credentials and build the service handle (`credOutcome`, carrying the project
name on success); on failure log at error level and re-raise, on success log
at info level. -/
def init (log_level : Nat) (credOutcome : Except PyExc String) (ls : LoggingState) :
    InitRes :=
  let lg0 := getLogger loggerName ls
  let lg1 : PyLogger := { lg0 with level := log_level }
  let lg2 : PyLogger :=
    if lg1.handlers.isEmpty then { lg1 with handlers := [⟨defaultFormat⟩] } else lg1
  let ls1 := setLogger loggerName lg2 ls
  match credOutcome with
  | .ok project =>
      ⟨ls1, [⟨.info, "GCS client initialized for project: " ++ project⟩], .ok ()⟩
  | .error e =>
      ⟨ls1, [⟨.error, "Failed to initialize GCS client: " ++ e.msg⟩], .error e⟩

end GCSClient

/-- A concrete system state with no buckets and one local file. -/
def sys0 : Sys := ⟨⟨[], [], 0⟩, [("local.txt", [104, 105])]⟩

/-- A concrete system state with one bucket and one local file. -/
def sys1 : Sys := ⟨⟨["b1"], [], 1⟩, [("local.txt", [1, 2, 3])]⟩

theorem startsWithStr_empty (s : String) : startsWithStr "" s = true := rfl

theorem getA_setA_self {κ β : Type} [BEq κ] [LawfulBEq κ] (k : κ) (v : β)
    (l : List (κ × β)) : getA k (setA k v l) = some v := by
  simp [getA, setA]

theorem getA_delA_self {κ β : Type} [BEq κ] [LawfulBEq κ] (k : κ)
    (l : List (κ × β)) : getA k (delA k l) = none := by
  induction l with
  | nil => rfl
  | cons p rest ih =>
    by_cases hk : (k == p.1) = true
    · simpa [delA, List.filter_cons, hk] using ih
    · simpa [delA, List.filter_cons, hk, getA] using ih

theorem md5Hash_ne_empty (d : List Nat) : md5Hash d ≠ "" := by
  intro hcon
  have hlen := congrArg String.length hcon
  rw [md5Hash, String.length_append] at hlen
  have h4 : "md5-".length = 4 := rfl
  have h0 : "".length = 0 := rfl
  rw [h4, h0] at hlen
  omega

theorem getLogger_setLogger_self (n : String) (lg : PyLogger) (ls : LoggingState) :
    getLogger n (setLogger n lg ls) = lg := by
  simp [getLogger, setLogger, setA, getA]

theorem init_handlers (lvl : Nat) (o : Except PyExc String) (ls : LoggingState) :
    (getLogger loggerName ((GCSClient.init lvl o ls).logging)).handlers =
      if (getLogger loggerName ls).handlers.isEmpty then [⟨defaultFormat⟩]
      else (getLogger loggerName ls).handlers := by
  cases o <;>
    simp only [GCSClient.init, getLogger_setLogger_self] <;>
    split <;> simp_all

/-- Claim C1: for every operation other than construction (create_bucket,
list_buckets, bucket_exists, list_files, upload_file, download_file,
get_file_metadata, delete_file, delete_bucket) and for every error the
underlying service call raises, the operation does not propagate the
exception but returns its documented sentinel value: false for the boolean
operations, the empty sequence for the listing operations, and the absent
value for get_file_metadata. -/
theorem spec_C1 :
    (∀ e b s, (GCSClient.create_bucket (some e) b s).ret = false)
  ∧ (∀ e s, (GCSClient.list_buckets (some e) s).ret = [])
  ∧ (∀ e b s, (GCSClient.bucket_exists (some e) b s).ret = false)
  ∧ (∀ e b p s, (GCSClient.list_files (some e) b p s).ret = [])
  ∧ (∀ e b src dst s, (GCSClient.upload_file (some e) b src dst s).ret = false)
  ∧ (∀ e b o d s, (GCSClient.download_file (some e) b o d s).ret = false)
  ∧ (∀ e b o s, (GCSClient.get_file_metadata (some e) b o s).ret = none)
  ∧ (∀ e b o s, (GCSClient.delete_file (some e) b o s).ret = false)
  ∧ (∀ e b s, (GCSClient.delete_bucket (some e) b s).ret = false) := by
  refine ⟨fun e b s => rfl, fun e s => rfl, fun e b s => ?_, fun e b p s => rfl,
    fun e b src dst s => rfl, fun e b o d s => rfl, fun e b o s => ?_,
    fun e b o s => rfl, fun e b s => rfl⟩
  · simp only [GCSClient.bucket_exists, inject]
    split <;> rfl
  · simp only [GCSClient.get_file_metadata, inject]
    split <;> rfl

/-- Claim C2: for every failure during construction (credential loading or
service-handle building), the constructor logs the failure and then
re-raises it to the caller; construction is the one operation that is not
converted to a sentinel return. -/
theorem spec_C2 (lvl : Nat) (e : PyExc) (ls : LoggingState) :
    (GCSClient.init lvl (.error e) ls).result = .error e
  ∧ (GCSClient.init lvl (.error e) ls).logs =
      [⟨LogLevel.error, "Failed to initialize GCS client: " ++ e.msg⟩] :=
  ⟨rfl, rfl⟩

/-- Claim C3: for every error raised during bucket_exists whose message
contains "403" or "Permission", bucket_exists logs at warning level (not
error level) and returns false rather than raising; for every other error it
logs at error level and also returns false. -/
theorem spec_C3 (e : PyExc) (b : String) (s : Sys) :
    (GCSClient.bucket_exists (some e) b s).ret = false
  ∧ (GCSClient.bucket_exists (some e) b s).logs.map LogEntry.level =
      [if containsSub "403" e.msg || containsSub "Permission" e.msg then
        LogLevel.warning else LogLevel.error] := by
  cases hc : containsSub "403" e.msg || containsSub "Permission" e.msg <;>
    simp [GCSClient.bucket_exists, inject, hc]

/-- Claim C4: for every call to get_file_metadata, a not-found error from
the service is logged at warning level and every other error at error level,
and in both cases the absent sentinel (none) is returned, so the caller
cannot distinguish not-found from other failures from the return value
alone. -/
theorem spec_C4 (e : PyExc) (b o : String) (s : Sys) :
    (GCSClient.get_file_metadata (some e) b o s).ret = none
  ∧ (GCSClient.get_file_metadata (some e) b o s).logs.map LogEntry.level =
      [if e.isNotFound then LogLevel.warning else LogLevel.error] := by
  cases hn : e.isNotFound <;> simp [GCSClient.get_file_metadata, inject, hn]

/-- Claim C5: for every bucket name B, in any service state where B has not
been created, bucket_exists(B) returns false (whether or not the underlying
call fails); and in any state reached immediately after create_bucket(B)
returned true, bucket_exists(B) returns true. -/
theorem spec_C5 :
    (∀ fault b s, s.service.buckets.contains b = false →
      (GCSClient.bucket_exists fault b s).ret = false)
  ∧ (∀ fault b s, (GCSClient.create_bucket fault b s).ret = true →
      (GCSClient.bucket_exists none b
        (GCSClient.create_bucket fault b s).sys).ret = true) := by
  constructor
  · intro fault b s h
    cases fault with
    | none => simpa [GCSClient.bucket_exists, inject, Service.bucketExists] using h
    | some e =>
      simp only [GCSClient.bucket_exists, inject]
      split <;> rfl
  · intro fault b s h
    cases fault with
    | none =>
      by_cases hm : b ∈ s.service.buckets
      · exfalso
        simp [GCSClient.create_bucket, inject, Service.createBucket, hm] at h
      · simp [GCSClient.create_bucket, inject, Service.createBucket, hm,
          GCSClient.bucket_exists, Service.bucketExists]
    | some e =>
      exfalso
      simp [GCSClient.create_bucket, inject] at h

/-- Witness for C5 at a concrete input: "b1" has not been created in `sys0`,
and creating it then checking reports it exists. -/
theorem spec_C5_witness :
    (sys0.service.buckets.contains "b1" = false
      ∧ (GCSClient.bucket_exists none "b1" sys0).ret = false)
  ∧ ((GCSClient.create_bucket none "b1" sys0).ret = true
      ∧ (GCSClient.bucket_exists none "b1"
          (GCSClient.create_bucket none "b1" sys0).sys).ret = true) :=
  ⟨⟨by decide, spec_C5.1 none "b1" sys0 (by decide)⟩,
   ⟨by decide, spec_C5.2 none "b1" sys0 (by decide)⟩⟩

/-- Claim C6: for every bucket, local file, and object name, if
upload_file(bucket, local_path, obj) returns true, then list_files(bucket)
includes obj, and download_file(bucket, obj, out_path) returns true and
produces a local file at out_path whose bytes equal those of local_path
(upload/download round-trip). -/
theorem spec_C6 (b src dst out : String) (s : Sys)
    (h : (GCSClient.upload_file none b src dst s).ret = true) :
    ((GCSClient.list_files none b ""
        (GCSClient.upload_file none b src dst s).sys).ret).contains dst = true
  ∧ (GCSClient.download_file none b dst out
      (GCSClient.upload_file none b src dst s).sys).ret = true
  ∧ getA out (GCSClient.download_file none b dst out
      (GCSClient.upload_file none b src dst s).sys).sys.fs = getA src s.fs := by
  rcases hr : getA src s.fs with _ | data
  · exfalso
    simp [GCSClient.upload_file, inject, readLocal, hr] at h
  by_cases hm : b ∈ s.service.buckets
  case neg =>
    exfalso
    simp [GCSClient.upload_file, inject, readLocal, hr, Service.uploadBlob, hm] at h
  case pos =>
    refine ⟨?_, ?_, ?_⟩
    · simp [GCSClient.upload_file, inject, readLocal, hr, Service.uploadBlob, hm,
        GCSClient.list_files, Service.listBlobs, setA, List.filter_cons,
        startsWithStr_empty]
    · simp [GCSClient.upload_file, inject, readLocal, hr, Service.uploadBlob, hm,
        GCSClient.download_file, Service.downloadBlob, getA_setA_self]
    · simp [GCSClient.upload_file, inject, readLocal, hr, Service.uploadBlob, hm,
        GCSClient.download_file, Service.downloadBlob, getA_setA_self]

/-- Witness for C6 at a concrete input: uploading "local.txt" of `sys1` as
"obj" into the existing bucket "b1" succeeds, "obj" is listed, and the
download to "out.txt" reproduces the bytes. -/
theorem spec_C6_witness :
    (GCSClient.upload_file none "b1" "local.txt" "obj" sys1).ret = true
  ∧ (((GCSClient.list_files none "b1" ""
        (GCSClient.upload_file none "b1" "local.txt" "obj" sys1).sys).ret).contains
          "obj" = true
    ∧ (GCSClient.download_file none "b1" "obj" "out.txt"
        (GCSClient.upload_file none "b1" "local.txt" "obj" sys1).sys).ret = true
    ∧ getA "out.txt" (GCSClient.download_file none "b1" "obj" "out.txt"
        (GCSClient.upload_file none "b1" "local.txt" "obj" sys1).sys).sys.fs
      = getA "local.txt" sys1.fs) :=
  ⟨by decide, spec_C6 "b1" "local.txt" "obj" "out.txt" sys1 (by decide)⟩

/-- Claim C7: for every bucket and object name obj, after a successful upload
of obj, get_file_metadata(bucket, obj) returns a record (of the `Metadata`
type, which has exactly the fields name, size, content_type, created,
updated, md5_hash) whose name field equals obj and whose md5_hash is
non-empty; and after delete_file(bucket, obj) succeeds, a subsequent
get_file_metadata(bucket, obj) returns the absent sentinel. -/
theorem spec_C7 (b src dst : String) (s : Sys)
    (h : (GCSClient.upload_file none b src dst s).ret = true) :
    (∃ m : Metadata,
        (GCSClient.get_file_metadata none b dst
          (GCSClient.upload_file none b src dst s).sys).ret = some m
      ∧ m.name = dst ∧ m.md5_hash ≠ "")
  ∧ (GCSClient.delete_file none b dst
      (GCSClient.upload_file none b src dst s).sys).ret = true
  ∧ (GCSClient.get_file_metadata none b dst
      (GCSClient.delete_file none b dst
        (GCSClient.upload_file none b src dst s).sys).sys).ret = none := by
  rcases hr : getA src s.fs with _ | data
  · exfalso
    simp [GCSClient.upload_file, inject, readLocal, hr] at h
  by_cases hm : b ∈ s.service.buckets
  case neg =>
    exfalso
    simp [GCSClient.upload_file, inject, readLocal, hr, Service.uploadBlob, hm] at h
  case pos =>
    refine ⟨?_, ?_, ?_⟩
    · refine ⟨⟨dst, data.length, contentTypeOf dst, s.service.now, s.service.now,
        md5Hash data⟩, ?_, rfl, md5Hash_ne_empty data⟩
      simp [GCSClient.upload_file, inject, readLocal, hr, Service.uploadBlob, hm,
        GCSClient.get_file_metadata, Service.reloadBlob, getA_setA_self]
    · simp [GCSClient.upload_file, inject, readLocal, hr, Service.uploadBlob, hm,
        GCSClient.delete_file, Service.deleteBlob, getA_setA_self]
    · simp [GCSClient.upload_file, inject, readLocal, hr, Service.uploadBlob, hm,
        GCSClient.delete_file, Service.deleteBlob, getA_setA_self,
        GCSClient.get_file_metadata, Service.reloadBlob, getA_delA_self,
        notFoundExc]

/-- Witness for C7 at a concrete input: uploading "local.txt" of `sys1` as
"obj" into the existing bucket "b1" succeeds, the metadata names "obj" with a
non-empty hash, and after deletion the metadata is absent. -/
theorem spec_C7_witness :
    (GCSClient.upload_file none "b1" "local.txt" "obj" sys1).ret = true
  ∧ ((∃ m : Metadata,
        (GCSClient.get_file_metadata none "b1" "obj"
          (GCSClient.upload_file none "b1" "local.txt" "obj" sys1).sys).ret = some m
      ∧ m.name = "obj" ∧ m.md5_hash ≠ "")
    ∧ (GCSClient.delete_file none "b1" "obj"
        (GCSClient.upload_file none "b1" "local.txt" "obj" sys1).sys).ret = true
    ∧ (GCSClient.get_file_metadata none "b1" "obj"
        (GCSClient.delete_file none "b1" "obj"
          (GCSClient.upload_file none "b1" "local.txt" "obj" sys1).sys).sys).ret
      = none) :=
  ⟨by decide, spec_C7 "b1" "local.txt" "obj" sys1 (by decide)⟩

/-- Counterexample to claim C8 as stated: when the underlying service reports
the target object of delete_file as not existing (the SDK's NotFound
exception), delete_file logs that failure at error level, not at warning
level (lines 207-209 catch every exception with `self.logger.error`). -/
theorem spec_C8_counterexample :
    ((GCSClient.delete_file
        (some (notFoundExc "404 DELETE: object o1 does not exist"))
        "b1" "o1" sys0).logs.map LogEntry.level = [LogLevel.error])
  ∧ (GCSClient.delete_file
        (some (notFoundExc "404 DELETE: object o1 does not exist"))
        "b1" "o1" sys0).ret = false
  ∧ LogLevel.error ≠ LogLevel.warning := by
  decide

/-- Claim C8 amended: for every operation and every underlying not-found
error, the operation returns its failure/absent sentinel, but only
get_file_metadata logs the not-found failure at warning level, and
bucket_exists logs it at warning level exactly when the error message
contains "403" or "Permission"; every other operation (create_bucket,
list_buckets, list_files, upload_file, download_file, delete_file,
delete_bucket) logs it at error level like any other error. -/
theorem spec_C8_amended (m b o d p src dst : String) (s : Sys) :
    ((GCSClient.create_bucket (some ⟨true, m⟩) b s).ret = false
      ∧ (GCSClient.create_bucket (some ⟨true, m⟩) b s).logs.map LogEntry.level
        = [LogLevel.error])
  ∧ ((GCSClient.list_buckets (some ⟨true, m⟩) s).ret = []
      ∧ (GCSClient.list_buckets (some ⟨true, m⟩) s).logs.map LogEntry.level
        = [LogLevel.error])
  ∧ ((GCSClient.bucket_exists (some ⟨true, m⟩) b s).ret = false
      ∧ (GCSClient.bucket_exists (some ⟨true, m⟩) b s).logs.map LogEntry.level
        = [if containsSub "403" m || containsSub "Permission" m then
            LogLevel.warning else LogLevel.error])
  ∧ ((GCSClient.list_files (some ⟨true, m⟩) b p s).ret = []
      ∧ (GCSClient.list_files (some ⟨true, m⟩) b p s).logs.map LogEntry.level
        = [LogLevel.error])
  ∧ ((GCSClient.upload_file (some ⟨true, m⟩) b src dst s).ret = false
      ∧ (GCSClient.upload_file (some ⟨true, m⟩) b src dst s).logs.map LogEntry.level
        = [LogLevel.error])
  ∧ ((GCSClient.download_file (some ⟨true, m⟩) b o d s).ret = false
      ∧ (GCSClient.download_file (some ⟨true, m⟩) b o d s).logs.map LogEntry.level
        = [LogLevel.error])
  ∧ ((GCSClient.get_file_metadata (some ⟨true, m⟩) b o s).ret = none
      ∧ (GCSClient.get_file_metadata (some ⟨true, m⟩) b o s).logs.map LogEntry.level
        = [LogLevel.warning])
  ∧ ((GCSClient.delete_file (some ⟨true, m⟩) b o s).ret = false
      ∧ (GCSClient.delete_file (some ⟨true, m⟩) b o s).logs.map LogEntry.level
        = [LogLevel.error])
  ∧ ((GCSClient.delete_bucket (some ⟨true, m⟩) b s).ret = false
      ∧ (GCSClient.delete_bucket (some ⟨true, m⟩) b s).logs.map LogEntry.level
        = [LogLevel.error]) := by
  refine ⟨⟨rfl, rfl⟩, ⟨rfl, rfl⟩, ⟨?_, ?_⟩, ⟨rfl, rfl⟩, ⟨rfl, rfl⟩, ⟨rfl, rfl⟩,
    ⟨rfl, rfl⟩, ⟨rfl, rfl⟩, ⟨rfl, rfl⟩⟩ <;>
    cases hc : containsSub "403" m || containsSub "Permission" m <;>
      simp [GCSClient.bucket_exists, inject, hc]

/-- Claim C9: constructing any number of StorageClient instances in the same
process attaches at most one log sink to the component's logger: the
constructor attaches a handler with the timestamped, leveled text format only
when the process-wide logger for this component name has no handler yet, so
repeated construction is idempotent with respect to attached sinks. -/
theorem spec_C9 :
    (∀ lvl o ls,
      (getLogger loggerName ((GCSClient.init lvl o ls).logging)).handlers =
        if (getLogger loggerName ls).handlers.isEmpty then [⟨defaultFormat⟩]
        else (getLogger loggerName ls).handlers)
  ∧ (∀ l1 l2 o1 o2 ls,
      (getLogger loggerName
          ((GCSClient.init l2 o2 ((GCSClient.init l1 o1 ls).logging)).logging)).handlers
        = (getLogger loggerName ((GCSClient.init l1 o1 ls).logging)).handlers) := by
  constructor
  · exact init_handlers
  · intro l1 l2 o1 o2 ls
    rw [init_handlers l2 o2, init_handlers l1 o1]
    cases he : (getLogger loggerName ls).handlers.isEmpty <;> simp [he]

/-- Claim C10: every GCSClient instance obtains its logger under the same
process-wide logger name (`loggerName`, a constant of module and class), and
the constructor sets that shared logger's level to its log_level argument, so
constructing a second instance with a different log_level changes the
effective logging level observed by all previously constructed instances: the
logger is shared mutable process state, not per-instance state. -/
theorem spec_C10 (l1 l2 : Nat) (o1 o2 : Except PyExc String) (ls : LoggingState) :
    (getLogger loggerName ((GCSClient.init l1 o1 ls).logging)).level = l1
  ∧ (getLogger loggerName
      ((GCSClient.init l2 o2 ((GCSClient.init l1 o1 ls).logging)).logging)).level
    = l2 := by
  constructor <;>
    (cases o1 <;> cases o2 <;>
      simp only [GCSClient.init, getLogger_setLogger_self] <;>
      split <;> rfl)
